import Mathlib

/-
Shallow embedding of the vehicle-tracker widget
(src/src/components/VehicleMap.jsx).

JavaScript numbers are modelled as real numbers (exact arithmetic); the
interval-driven animation callback is modelled as an explicit step function
on an explicit playback-state record, and the interval handle as a Boolean
flag `intervalActive` (`setInterval` sets it, `clearInterval` clears it,
and a scheduled firing only happens while it is set).
-/

/-- A (latitude, longitude) pair, as used throughout `VehicleMap.jsx`. -/
abbrev Coord : Type := ℝ × ℝ

/-- JavaScript's two-argument arctangent `Math.atan2(y, x)`, modelled as the
principal argument of the complex number `x + y i` (range `(-pi, pi]`,
`atan2 0 0 = 0`, matching `Math.atan2` on non-negative zeros). -/
noncomputable def atan2 (y x : ℝ) : ℝ := Complex.arg ⟨x, y⟩

/-- JavaScript's remainder `x % 360` for the non-negative dividends produced
in `getBearing` (there the dividend is always `> 180`), i.e. the
floor-based remainder `x - 360 * floor (x / 360)`. -/
noncomputable def mod360 (x : ℝ) : ℝ := x - 360 * (Int.floor (x / 360) : ℝ)

/-- `getDistance` from VehicleMap.jsx lines 37-48: haversine great-circle
distance in kilometres with Earth radius `R = 6371` km. -/
noncomputable def getDistance (a b : Coord) : ℝ :=
  2 * 6371 *
    Real.arcsin (Real.sqrt
      (Real.sin ((b.1 - a.1) * Real.pi / 180 / 2) ^ 2 +
        Real.sin ((b.2 - a.2) * Real.pi / 180 / 2) ^ 2 *
          Real.cos (a.1 * Real.pi / 180) * Real.cos (b.1 * Real.pi / 180)))

/-- `getBearing` from VehicleMap.jsx lines 51-65: initial compass bearing,
`(toDeg (atan2 y x) + 360) % 360`. -/
noncomputable def getBearing (A B : Coord) : ℝ :=
  mod360
    (atan2 (Real.sin ((B.2 - A.2) * Real.pi / 180) * Real.cos (B.1 * Real.pi / 180))
        (Real.cos (A.1 * Real.pi / 180) * Real.sin (B.1 * Real.pi / 180) -
          Real.sin (A.1 * Real.pi / 180) * Real.cos (B.1 * Real.pi / 180) *
            Real.cos ((B.2 - A.2) * Real.pi / 180)) * 180 / Real.pi + 360)


/-- A raw waypoint record from the fetched route source, exposing numeric
`latitude` and `longitude` fields (VehicleMap.jsx line 92). -/
structure Waypoint where
  latitude : ℝ
  longitude : ℝ

/-- The route fetch effect, VehicleMap.jsx lines 88-98: map each record to a
`[latitude, longitude]` pair and append the first pair to close the loop.
For an empty input the JavaScript code would append `undefined`, which is
not a coordinate; that degenerate case is modelled as the empty route. -/
def loadRoute (data : List Waypoint) : List Coord :=
  let formatted := data.map fun p => ((p.latitude : ℝ), (p.longitude : ℝ))
  match formatted.head? with
  | some h0 => formatted ++ [h0]
  | none => []

/-- The loading guard of VehicleMap.jsx line 145:
the component renders only the loading indicator while `route.length === 0`. -/
def loadingGuardShown (route : List Coord) : Bool := route.length == 0

/-- The mutable state owned by the component: React state hooks
(lines 68-76), the two playback refs (lines 79-80), the interval handle
(line 78, as the flag `intervalActive`), the DOM rotation of the car icon
(line 127, as `heading`), and a count of completion alerts (line 113). -/
structure PlaybackState where
  segmentIndex : ℕ
  currentIndex : ℕ
  progress : ℝ
  isPlaying : Bool
  intervalActive : Bool
  visitedPath : List Coord
  currentPos : Coord
  distanceCovered : ℝ
  heading : ℝ
  speed : ℝ
  alerts : ℕ

/-- The state right after the route fetch resolves (lines 68-80, 94-96):
stopped at the first route point with nothing covered. -/
noncomputable def initState (route : List Coord) : PlaybackState :=
  { segmentIndex := 0
    currentIndex := 0
    progress := 0
    isPlaying := false
    intervalActive := false
    visitedPath := [route.headI]
    currentPos := route.headI
    distanceCovered := 0
    heading := 0
    speed := 1
    alerts := 0 }

/-- `const start = route[i]` of VehicleMap.jsx line 109 (in-range reads only;
the `getD` default is never reached under the branch guard of `tick`). -/
def segStart (route : List Coord) (s : PlaybackState) : Coord :=
  route.getD s.segmentIndex (0, 0)

/-- `const end = route[i + 1]` of VehicleMap.jsx line 110. -/
def segEnd (route : List Coord) (s : PlaybackState) : Coord :=
  route.getD (s.segmentIndex + 1) (0, 0)

/-- The interpolated position of VehicleMap.jsx lines 117-119:
`start + (end - start) * progress`, componentwise. -/
noncomputable def tickPos (route : List Coord) (s : PlaybackState) : Coord :=
  ((segStart route s).1 + ((segEnd route s).1 - (segStart route s).1) * s.progress,
    (segStart route s).2 + ((segEnd route s).2 - (segStart route s).2) * s.progress)

/-- One firing of the `setInterval` callback, VehicleMap.jsx lines 106-139.
`route[i + 1]` is `undefined` exactly when `i + 1 >= route.length`, in which
case the callback clears the interval, alerts, and returns before touching
any other state.  Otherwise it interpolates, appends to the visited path,
rotates the car icon by `(bearing - 90 + 90) % 360`, advances the progress
ref by `0.02`, and on reaching `1` resets the progress, advances both
segment indices and credits the completed segment's distance once. -/
noncomputable def tick (route : List Coord) (s : PlaybackState) : PlaybackState :=
  if s.segmentIndex + 1 < route.length then
    if 1 ≤ s.progress + 0.02 then
      { s with
          currentPos := tickPos route s
          visitedPath := s.visitedPath ++ [tickPos route s]
          heading := mod360 (getBearing (segStart route s) (segEnd route s) - 90 + 90)
          progress := 0
          segmentIndex := s.segmentIndex + 1
          currentIndex := s.segmentIndex + 1
          distanceCovered := s.distanceCovered + getDistance (segStart route s) (segEnd route s) * 1000 }
    else
      { s with
          currentPos := tickPos route s
          visitedPath := s.visitedPath ++ [tickPos route s]
          heading := mod360 (getBearing (segStart route s) (segEnd route s) - 90 + 90)
          progress := s.progress + 0.02 }
  else
    { s with intervalActive := false, alerts := s.alerts + 1 }

/-- One scheduler slot: the callback only fires while the interval handle is
live (it is cleared by the completion branch, by pausing, and by reset). -/
noncomputable def fire (route : List Coord) (s : PlaybackState) : PlaybackState :=
  if s.intervalActive then tick route s else s

/-- Clicking the Play half of the toggle (line 238, `setIsPlaying(true)`):
the playback effect (lines 101-143) then creates the interval exactly when
`isPlaying && route.length > 1`. -/
def playCmd (route : List Coord) (s : PlaybackState) : PlaybackState :=
  { s with isPlaying := true, intervalActive := decide (1 < route.length) }

/-- Clicking the Pause half of the toggle (line 238, `setIsPlaying(false)`):
the effect cleanup (line 142) clears the interval. -/
def pauseCmd (s : PlaybackState) : PlaybackState :=
  { s with isPlaying := false, intervalActive := false }

/-- The Reset button handler, VehicleMap.jsx lines 251-262. -/
noncomputable def resetState (route : List Coord) (s : PlaybackState) : PlaybackState :=
  { s with
      isPlaying := false
      intervalActive := false
      segmentIndex := 0
      progress := 0
      currentIndex := 0
      visitedPath := [route.headI]
      currentPos := route.headI
      distanceCovered := 0
      heading := 0 }

/-- `toFixed(1)` on the non-negative finite numbers produced by the progress
computation: round to one decimal place. -/
noncomputable def round1 (x : ℝ) : ℝ := ((round (x * 10) : ℤ) : ℝ) / 10

/-- `progressPercent`, VehicleMap.jsx lines 153-156:
`Math.min(((currentIndex / (route.length - 1)) * 100).toFixed(1), 100)`. -/
noncomputable def progressPercent (route : List Coord) (s : PlaybackState) : ℝ :=
  min (round1 ((s.currentIndex : ℝ) / ((route.length : ℝ) - 1) * 100)) 100

/-- Sum of the haversine distances of the first `k` route segments; the
running value of `distanceCovered` is `1000` times this. -/
noncomputable def segDistSum (route : List Coord) (k : ℕ) : ℝ :=
  (Finset.range k).sum fun j => getDistance (route.getD j (0, 0)) (route.getD (j + 1) (0, 0))

/-- The closed-loop example route `[[0,0],[0,1],[0,0]]` from the spec. -/
noncomputable def exampleRoute : List Coord := [(0, 0), (0, 1), (0, 0)]

/-- A generic concrete playing state used to instantiate universally
quantified theorems: fresh playback at segment 0 with a live interval. -/
noncomputable def demoState : PlaybackState :=
  { segmentIndex := 0
    currentIndex := 0
    progress := 0
    isPlaying := true
    intervalActive := true
    visitedPath := []
    currentPos := (0, 0)
    distanceCovered := 0
    heading := 0
    speed := 1
    alerts := 0 }

/-- The state of the example run right after its completing firing
(two 50-tick segments plus the completion firing). -/
noncomputable def endState : PlaybackState :=
  (fire exampleRoute)^[101] (playCmd exampleRoute (initState exampleRoute))

/-- A concrete end-of-route state with playback paused, used to
instantiate the play-at-end theorem. -/
noncomputable def sEndDemo : PlaybackState :=
  { segmentIndex := 2
    currentIndex := 2
    progress := 0
    isPlaying := false
    intervalActive := false
    visitedPath := []
    currentPos := (0, 0)
    distanceCovered := 0
    heading := 0
    speed := 1
    alerts := 1 }

lemma mod360_eq_fract (x : ℝ) : mod360 x = 360 * Int.fract (x / 360) := by
  unfold mod360 Int.fract
  ring

lemma mod360_nonneg (x : ℝ) : 0 ≤ mod360 x := by
  rw [mod360_eq_fract]
  exact mul_nonneg (by norm_num) (Int.fract_nonneg _)

lemma mod360_lt (x : ℝ) : mod360 x < 360 := by
  rw [mod360_eq_fract]
  have h := Int.fract_lt_one (x / 360)
  nlinarith

lemma getDistance_nonneg (a b : Coord) : 0 ≤ getDistance a b := by
  unfold getDistance
  have h : 0 ≤ Real.arcsin (Real.sqrt
      (Real.sin ((b.1 - a.1) * Real.pi / 180 / 2) ^ 2 +
        Real.sin ((b.2 - a.2) * Real.pi / 180 / 2) ^ 2 *
          Real.cos (a.1 * Real.pi / 180) * Real.cos (b.1 * Real.pi / 180))) :=
    Real.arcsin_nonneg.2 (Real.sqrt_nonneg _)
  nlinarith

/-- C8: for all coordinates `a`, `b`, `getDistance a a = 0` and
`getDistance a b = getDistance b a` (haversine distance with R = 6371 km). -/
theorem C8_distance_props :
    ∀ a b : Coord, getDistance a a = 0 ∧ getDistance a b = getDistance b a := by
  intro a b
  constructor
  · simp [getDistance]
  · unfold getDistance
    have hswap : ∀ u v : ℝ,
        Real.sin ((u - v) * Real.pi / 180 / 2) ^ 2 =
          Real.sin ((v - u) * Real.pi / 180 / 2) ^ 2 := by
      intro u v
      have h : (u - v) * Real.pi / 180 / 2 = -((v - u) * Real.pi / 180 / 2) := by ring
      rw [h, Real.sin_neg]
      ring
    rw [hswap b.1 a.1, hswap b.2 a.2]
    ring_nf

/-- C9: `getBearing` always lands in `[0, 360)` (thanks to the final
`% 360` on a dividend shifted by `+360`), and the degenerate case
`getBearing A A` consistently returns the fixed value `0`. -/
theorem C9_bearing_props :
    ∀ A B : Coord, (0 ≤ getBearing A B ∧ getBearing A B < 360) ∧ getBearing A A = 0 := by
  intro A B
  constructor
  · exact ⟨mod360_nonneg _, mod360_lt _⟩
  · have hy : Real.sin ((A.2 - A.2) * Real.pi / 180) * Real.cos (A.1 * Real.pi / 180) = 0 := by
      simp
    have hx : Real.cos (A.1 * Real.pi / 180) * Real.sin (A.1 * Real.pi / 180) -
        Real.sin (A.1 * Real.pi / 180) * Real.cos (A.1 * Real.pi / 180) *
          Real.cos ((A.2 - A.2) * Real.pi / 180) = 0 := by
      rw [sub_self, zero_mul, zero_div, Real.cos_zero, mul_one]
      ring
    unfold getBearing
    rw [hy, hx]
    unfold atan2
    have h0 : (⟨0, 0⟩ : ℂ) = 0 := by
      rfl
    rw [h0, Complex.arg_zero]
    unfold mod360
    have h1 : (0 : ℝ) * 180 / Real.pi + 360 = 360 := by
      simp
    rw [h1]
    have h2 : ((360 : ℝ) / 360) = 1 := by norm_num
    rw [h2]
    simp

lemma tick_end (route : List Coord) (s : PlaybackState)
    (h : route.length ≤ s.segmentIndex + 1) :
    tick route s = { s with intervalActive := false, alerts := s.alerts + 1 } := by
  unfold tick
  rw [if_neg (by omega)]

lemma tick_cross (route : List Coord) (s : PlaybackState)
    (h : s.segmentIndex + 1 < route.length) (hp : 1 ≤ s.progress + 0.02) :
    tick route s =
      { s with
          currentPos := tickPos route s
          visitedPath := s.visitedPath ++ [tickPos route s]
          heading := mod360 (getBearing (segStart route s) (segEnd route s) - 90 + 90)
          progress := 0
          segmentIndex := s.segmentIndex + 1
          currentIndex := s.segmentIndex + 1
          distanceCovered := s.distanceCovered + getDistance (segStart route s) (segEnd route s) * 1000 } := by
  unfold tick
  rw [if_pos h, if_pos hp]

lemma tick_nocross (route : List Coord) (s : PlaybackState)
    (h : s.segmentIndex + 1 < route.length) (hp : ¬ 1 ≤ s.progress + 0.02) :
    tick route s =
      { s with
          currentPos := tickPos route s
          visitedPath := s.visitedPath ++ [tickPos route s]
          heading := mod360 (getBearing (segStart route s) (segEnd route s) - 90 + 90)
          progress := s.progress + 0.02 } := by
  unfold tick
  rw [if_pos h, if_neg hp]

lemma fire_active {route : List Coord} {s : PlaybackState}
    (h : s.intervalActive = true) : fire route s = tick route s := by
  simp [fire, h]

lemma fire_inactive {route : List Coord} {s : PlaybackState}
    (h : s.intervalActive = false) : fire route s = s := by
  simp [fire, h]

lemma iterate_fire_fixed {route : List Coord} {s : PlaybackState}
    (h : s.intervalActive = false) (k : ℕ) : (fire route)^[k] s = s :=
  Function.iterate_fixed (fire_inactive h) k

/-- The progress ref crosses `1` on this firing exactly when `49` sub-steps
are already done: `r / 50 + 0.02 >= 1` iff `49 <= r`. -/
lemma cross_iff (r : ℕ) : (1 ≤ (r : ℝ) / 50 + 0.02) ↔ 49 ≤ r := by
  rw [show (0.02 : ℝ) = 1 / 50 by norm_num, div_add_div_same,
    le_div_iff₀ (by norm_num : (0 : ℝ) < 50), one_mul]
  constructor
  · intro h
    have h2 : (50 : ℕ) ≤ r + 1 := by exact_mod_cast h
    omega
  · intro h
    have h2 : (50 : ℕ) ≤ r + 1 := by omega
    exact_mod_cast h2

lemma segDistSum_succ (route : List Coord) (k : ℕ) :
    segDistSum route (k + 1) =
      segDistSum route k + getDistance (route.getD k (0, 0)) (route.getD (k + 1) (0, 0)) :=
  Finset.sum_range_succ _ _

/-- Counter part of a full playback run: starting from the freshly loaded
state with Play pressed, after `m <= 50 * (len - 1)` scheduled firings the
engine sits at segment `m / 50` with progress `(m % 50) / 50`, still playing
with a live interval, no completion alert, and the distance of the first
`m / 50` segments credited. -/
lemma run_counters (route : List Coord) (hL : 2 ≤ route.length) :
    ∀ m : ℕ, m ≤ 50 * (route.length - 1) →
      ((fire route)^[m] (playCmd route (initState route))).segmentIndex = m / 50 ∧
      ((fire route)^[m] (playCmd route (initState route))).currentIndex = m / 50 ∧
      ((fire route)^[m] (playCmd route (initState route))).progress = ((m % 50 : ℕ) : ℝ) / 50 ∧
      ((fire route)^[m] (playCmd route (initState route))).isPlaying = true ∧
      ((fire route)^[m] (playCmd route (initState route))).intervalActive = true ∧
      ((fire route)^[m] (playCmd route (initState route))).alerts = 0 ∧
      ((fire route)^[m] (playCmd route (initState route))).distanceCovered =
        segDistSum route (m / 50) * 1000 := by
  intro m
  induction m with
  | zero =>
    intro hm
    refine ⟨rfl, rfl, by simp [playCmd, initState], rfl, ?_, rfl, ?_⟩
    · simp only [Function.iterate_zero_apply, playCmd, decide_eq_true_eq]
      omega
    · simp [segDistSum, playCmd, initState]
  | succ m ih =>
    intro hm
    have hm' : m ≤ 50 * (route.length - 1) := by omega
    obtain ⟨h1, h2, h3, h4, h5, h6, h7⟩ := ih hm'
    rw [Function.iterate_succ_apply']
    set sm := (fire route)^[m] (playCmd route (initState route)) with hsm
    rw [fire_active h5]
    have hseg : sm.segmentIndex + 1 < route.length := by
      rw [h1]
      omega
    by_cases hc : 49 ≤ m % 50
    · have hm50 : m % 50 = 49 := by omega
      have hcross : 1 ≤ sm.progress + 0.02 := by
        rw [h3]
        exact (cross_iff _).2 hc
      rw [tick_cross route sm hseg hcross]
      refine ⟨?_, ?_, ?_, h4, h5, h6, ?_⟩
      · show sm.segmentIndex + 1 = (m + 1) / 50
        rw [h1]
        omega
      · show sm.segmentIndex + 1 = (m + 1) / 50
        rw [h1]
        omega
      · show (0 : ℝ) = (((m + 1) % 50 : ℕ) : ℝ) / 50
        rw [show (m + 1) % 50 = 0 by omega]
        norm_num
      · show sm.distanceCovered + getDistance (segStart route sm) (segEnd route sm) * 1000 =
          segDistSum route ((m + 1) / 50) * 1000
        rw [h7]
        unfold segStart segEnd
        rw [h1, show (m + 1) / 50 = m / 50 + 1 by omega, segDistSum_succ]
        ring
    · have hncross : ¬ 1 ≤ sm.progress + 0.02 := by
        rw [h3]
        intro hcontra
        exact hc ((cross_iff _).1 hcontra)
      rw [tick_nocross route sm hseg hncross]
      refine ⟨?_, ?_, ?_, h4, h5, h6, ?_⟩
      · show sm.segmentIndex = (m + 1) / 50
        rw [h1]
        omega
      · show sm.currentIndex = (m + 1) / 50
        rw [h2]
        omega
      · show sm.progress + 0.02 = (((m + 1) % 50 : ℕ) : ℝ) / 50
        rw [h3, show (m + 1) % 50 = m % 50 + 1 by omega,
          show (0.02 : ℝ) = 1 / 50 by norm_num]
        push_cast
        ring
      · show sm.distanceCovered = segDistSum route ((m + 1) / 50) * 1000
        rw [h7, show (m + 1) / 50 = m / 50 by omega]

/-- The firing after the last segment completes hits the `!end` branch:
it bumps the alert count, kills the interval, leaves everything else (in
particular `isPlaying`) untouched, and every later scheduler slot is a
no-op because the interval handle is cleared.  Holds for every
`k`-th state from the completing firing onwards. -/
lemma run_completes (route : List Coord) (hL : 2 ≤ route.length) :
    ∀ k : ℕ,
      ((fire route)^[50 * (route.length - 1) + 1 + k] (playCmd route (initState route))).alerts = 1 ∧
      ((fire route)^[50 * (route.length - 1) + 1 + k] (playCmd route (initState route))).isPlaying = true ∧
      ((fire route)^[50 * (route.length - 1) + 1 + k] (playCmd route (initState route))).intervalActive = false ∧
      ((fire route)^[50 * (route.length - 1) + 1 + k] (playCmd route (initState route))).segmentIndex = route.length - 1 := by
  intro k
  obtain ⟨h1, h2, h3, h4, h5, h6, h7⟩ :=
    run_counters route hL (50 * (route.length - 1)) le_rfl
  set sM := (fire route)^[50 * (route.length - 1)] (playCmd route (initState route)) with hsM
  have hMdiv : 50 * (route.length - 1) / 50 = route.length - 1 := by omega
  have hdone : tick route sM = { sM with intervalActive := false, alerts := sM.alerts + 1 } := by
    apply tick_end
    rw [h1, hMdiv]
    omega
  have hstep : (fire route)^[50 * (route.length - 1) + 1] (playCmd route (initState route)) =
      { sM with intervalActive := false, alerts := sM.alerts + 1 } := by
    rw [Function.iterate_succ_apply', ← hsM, fire_active h5, hdone]
  have hsplit : (fire route)^[50 * (route.length - 1) + 1 + k] (playCmd route (initState route)) =
      { sM with intervalActive := false, alerts := sM.alerts + 1 } := by
    rw [show 50 * (route.length - 1) + 1 + k = k + (50 * (route.length - 1) + 1) by omega,
      Function.iterate_add_apply, hstep]
    exact iterate_fire_fixed rfl k
  rw [hsplit]
  refine ⟨?_, h4, rfl, ?_⟩
  · show sM.alerts + 1 = 1
    rw [h6]
  · show sM.segmentIndex = route.length - 1
    rw [h1, hMdiv]

lemma round1_mono {a b : ℝ} (h : a ≤ b) : round1 a ≤ round1 b := by
  unfold round1
  have h2 : round (a * 10) ≤ round (b * 10) := by
    rw [round_eq, round_eq]
    exact Int.floor_mono (by linarith)
  have h3 : ((round (a * 10) : ℤ) : ℝ) ≤ ((round (b * 10) : ℤ) : ℝ) := by exact_mod_cast h2
  linarith

lemma round1_zero : round1 0 = 0 := by
  unfold round1
  rw [zero_mul, round_zero]
  norm_num

lemma round1_nonneg {a : ℝ} (h : 0 ≤ a) : 0 ≤ round1 a := by
  have h2 := round1_mono h
  rwa [round1_zero] at h2

lemma progressPercent_le_100 (route : List Coord) (s : PlaybackState) :
    progressPercent route s ≤ 100 :=
  min_le_right _ _

lemma length_cast_sub_pos {route : List Coord} (hL : 2 ≤ route.length) :
    (0 : ℝ) < (route.length : ℝ) - 1 := by
  have h : (2 : ℝ) ≤ (route.length : ℝ) := by exact_mod_cast hL
  linarith

lemma progressPercent_nonneg (route : List Coord) (s : PlaybackState)
    (hL : 2 ≤ route.length) : 0 ≤ progressPercent route s := by
  unfold progressPercent
  apply le_min
  · apply round1_nonneg
    apply mul_nonneg
    · exact div_nonneg (Nat.cast_nonneg _) (length_cast_sub_pos hL).le
    · norm_num
  · norm_num

lemma progressPercent_mono (route : List Coord) (hL : 2 ≤ route.length)
    {s t : PlaybackState} (h : s.currentIndex ≤ t.currentIndex) :
    progressPercent route s ≤ progressPercent route t := by
  unfold progressPercent
  have hden : (0 : ℝ) ≤ ((route.length : ℝ) - 1)⁻¹ :=
    inv_nonneg.2 (length_cast_sub_pos hL).le
  apply min_le_min _ le_rfl
  apply round1_mono
  rw [div_eq_mul_inv, div_eq_mul_inv]
  have hc : (s.currentIndex : ℝ) ≤ (t.currentIndex : ℝ) := by exact_mod_cast h
  exact mul_le_mul_of_nonneg_right
    (mul_le_mul_of_nonneg_right hc hden) (by norm_num : (0 : ℝ) ≤ 100)

lemma tick_distance_mono (route : List Coord) (s : PlaybackState) :
    s.distanceCovered ≤ (tick route s).distanceCovered := by
  unfold tick
  split_ifs
  · show s.distanceCovered ≤
      s.distanceCovered + getDistance (segStart route s) (segEnd route s) * 1000
    have h := getDistance_nonneg (segStart route s) (segEnd route s)
    nlinarith
  · exact le_rfl
  · exact le_rfl

lemma tick_currentIndex_mono (route : List Coord) (s : PlaybackState)
    (hinv : s.currentIndex = s.segmentIndex) :
    s.currentIndex ≤ (tick route s).currentIndex := by
  unfold tick
  split_ifs
  · show s.currentIndex ≤ s.segmentIndex + 1
    omega
  · exact le_rfl
  · exact le_rfl

lemma tick_preserves_inv (route : List Coord) (s : PlaybackState)
    (hinv : s.currentIndex = s.segmentIndex) :
    (tick route s).currentIndex = (tick route s).segmentIndex := by
  unfold tick
  split_ifs
  · rfl
  · exact hinv
  · exact hinv

lemma fire_distance_mono (route : List Coord) (s : PlaybackState) :
    s.distanceCovered ≤ (fire route s).distanceCovered := by
  unfold fire
  split_ifs
  · exact tick_distance_mono route s
  · exact le_rfl

lemma fire_currentIndex_mono (route : List Coord) (s : PlaybackState)
    (hinv : s.currentIndex = s.segmentIndex) :
    s.currentIndex ≤ (fire route s).currentIndex := by
  unfold fire
  split_ifs
  · exact tick_currentIndex_mono route s hinv
  · exact le_rfl

lemma fire_preserves_inv (route : List Coord) (s : PlaybackState)
    (hinv : s.currentIndex = s.segmentIndex) :
    (fire route s).currentIndex = (fire route s).segmentIndex := by
  unfold fire
  split_ifs
  · exact tick_preserves_inv route s hinv
  · exact hinv

lemma run_preserves_inv (route : List Coord) (s : PlaybackState)
    (hinv : s.currentIndex = s.segmentIndex) (n : ℕ) :
    ((fire route)^[n] s).currentIndex = ((fire route)^[n] s).segmentIndex := by
  induction n with
  | zero => exact hinv
  | succ n ih =>
    rw [Function.iterate_succ_apply']
    exact fire_preserves_inv route _ ih

lemma run_distance_mono (route : List Coord) (s : PlaybackState) (n : ℕ) :
    s.distanceCovered ≤ ((fire route)^[n] s).distanceCovered := by
  induction n with
  | zero => exact le_rfl
  | succ n ih =>
    rw [Function.iterate_succ_apply']
    exact le_trans ih (fire_distance_mono route _)

lemma run_currentIndex_mono (route : List Coord) (s : PlaybackState)
    (hinv : s.currentIndex = s.segmentIndex) (n : ℕ) :
    s.currentIndex ≤ ((fire route)^[n] s).currentIndex := by
  induction n with
  | zero => exact le_rfl
  | succ n ih =>
    rw [Function.iterate_succ_apply']
    exact le_trans ih (fire_currentIndex_mono route _ (run_preserves_inv route s hinv n))

/-- C4: on any loaded route (length at least 2, as required for the playback
effect to schedule ticks), `distanceCovered` never decreases across a tick
or across any run of scheduled firings; `progressPercent` never decreases
either (given the code's invariant that the rendered `currentIndex` mirrors
`segmentIndexRef`, which holds in every reachable state); and
`progressPercent` always lies in `[0, 100]`. -/
theorem C4_monotonicity :
    ∀ route : List Coord, 2 ≤ route.length →
      (∀ s : PlaybackState, s.distanceCovered ≤ (tick route s).distanceCovered) ∧
      (∀ s : PlaybackState, s.currentIndex = s.segmentIndex →
        progressPercent route s ≤ progressPercent route (tick route s)) ∧
      (∀ s : PlaybackState, s.currentIndex = s.segmentIndex → ∀ n : ℕ,
        s.distanceCovered ≤ ((fire route)^[n] s).distanceCovered ∧
        progressPercent route s ≤ progressPercent route ((fire route)^[n] s)) ∧
      (∀ s : PlaybackState,
        0 ≤ progressPercent route s ∧ progressPercent route s ≤ 100) := by
  intro route hL
  refine ⟨fun s => tick_distance_mono route s, ?_, ?_, ?_⟩
  · intro s hinv
    exact progressPercent_mono route hL (tick_currentIndex_mono route s hinv)
  · intro s hinv n
    exact ⟨run_distance_mono route s n,
      progressPercent_mono route hL (run_currentIndex_mono route s hinv n)⟩
  · intro s
    exact ⟨progressPercent_nonneg route s hL, progressPercent_le_100 route s⟩

lemma dist_example :
    getDistance ((0 : ℝ), (0 : ℝ)) ((0 : ℝ), (1 : ℝ)) = 6371 * Real.pi / 180 := by
  have hsin : 0 ≤ Real.sin (Real.pi / 180 / 2) :=
    Real.sin_nonneg_of_nonneg_of_le_pi (by positivity) (by nlinarith [Real.pi_pos])
  unfold getDistance
  norm_num
  rw [Real.sqrt_sq hsin]
  rw [Real.arcsin_sin (by nlinarith [Real.pi_pos]) (by nlinarith [Real.pi_pos])]
  ring

lemma example_run50 :
    ((fire exampleRoute)^[50] (playCmd exampleRoute (initState exampleRoute))).segmentIndex = 1 ∧
    ((fire exampleRoute)^[50] (playCmd exampleRoute (initState exampleRoute))).currentIndex = 1 ∧
    ((fire exampleRoute)^[50] (playCmd exampleRoute (initState exampleRoute))).distanceCovered =
      getDistance ((0 : ℝ), (0 : ℝ)) ((0 : ℝ), (1 : ℝ)) * 1000 := by
  have hL : 2 ≤ exampleRoute.length := by norm_num [exampleRoute]
  have hm : 50 ≤ 50 * (exampleRoute.length - 1) := by norm_num [exampleRoute]
  obtain ⟨h1, h2, h3, h4, h5, h6, h7⟩ := run_counters exampleRoute hL 50 hm
  refine ⟨?_, ?_, ?_⟩
  · rw [h1]
  · rw [h2]
  · rw [h7]
    norm_num [segDistSum, exampleRoute, Finset.sum_range_one]

lemma example_distance_bound :
    |((fire exampleRoute)^[50] (playCmd exampleRoute (initState exampleRoute))).distanceCovered
      - 111195| < 1 := by
  rw [example_run50.2.2, dist_example, abs_lt]
  constructor
  · nlinarith [Real.pi_gt_d6]
  · nlinarith [Real.pi_lt_d6]

lemma example_progressPercent :
    progressPercent exampleRoute
      ((fire exampleRoute)^[50] (playCmd exampleRoute (initState exampleRoute))) = 50 := by
  unfold progressPercent
  rw [example_run50.2.1]
  rw [show ((exampleRoute.length : ℝ)) = 3 by norm_num [exampleRoute]]
  rw [show ((1 : ℕ) : ℝ) / ((3 : ℝ) - 1) * 100 = 50 by norm_num]
  unfold round1
  rw [show (50 : ℝ) * 10 = ((500 : ℤ) : ℝ) by norm_num, round_intCast]
  rw [show ((500 : ℤ) : ℝ) / 10 = 50 by norm_num]
  exact min_eq_left (by norm_num)

/-- C1 (amended): when `tick()` fires with `segmentIndex + 1` out of range,
the engine clears the tick interval (so no further firings are scheduled)
and signals round trip completed; however `isPlaying` is left unchanged
(after a natural completion it stays `true`) rather than becoming `false`.
Over any run of scheduled firings from the freshly started state, exactly
one completion signal is emitted: the alert count is `1` once the run
passes the `50 * (len - 1) + 1`-th firing and `0` before. -/
theorem C1_completion_behavior :
    (∀ (route : List Coord) (s : PlaybackState),
        route.length ≤ s.segmentIndex + 1 →
          (tick route s).alerts = s.alerts + 1 ∧
          (tick route s).intervalActive = false ∧
          (tick route s).isPlaying = s.isPlaying) ∧
    (∀ route : List Coord, 2 ≤ route.length →
        ∀ n : ℕ,
          ((fire route)^[n] (playCmd route (initState route))).alerts =
            if 50 * (route.length - 1) < n then 1 else 0) := by
  constructor
  · intro route s h
    rw [tick_end route s h]
    exact ⟨rfl, rfl, rfl⟩
  · intro route hL n
    by_cases hn : n ≤ 50 * (route.length - 1)
    · rw [if_neg (by omega)]
      exact (run_counters route hL n hn).2.2.2.2.2.1
    · rw [if_pos (by omega)]
      have hk : n = 50 * (route.length - 1) + 1 + (n - (50 * (route.length - 1) + 1)) := by
        omega
      rw [hk]
      exact (run_completes route hL _).1

/-- C1 counterexample: on the example route the completing firing (the
101st) emits the completion signal, yet `isPlaying` is still `true` — the
engine does not transition the `isPlaying` flag to Stopped as claimed. -/
theorem C1_counterexample :
    ((fire exampleRoute)^[101] (playCmd exampleRoute (initState exampleRoute))).isPlaying = true ∧
    ((fire exampleRoute)^[101] (playCmd exampleRoute (initState exampleRoute))).alerts = 1 := by
  have hL : 2 ≤ exampleRoute.length := by norm_num [exampleRoute]
  have h := run_completes exampleRoute hL 0
  have hidx : 50 * (exampleRoute.length - 1) + 1 + 0 = 101 := by norm_num [exampleRoute]
  rw [hidx] at h
  exact ⟨h.2.1, h.1⟩

/-- C1 witness: the completion branch facts at a concrete out-of-range
state (empty route, segment index 0). -/
theorem C1_witness :
    ([] : List Coord).length ≤ demoState.segmentIndex + 1 ∧
    (tick [] demoState).alerts = demoState.alerts + 1 ∧
    (tick [] demoState).isPlaying = demoState.isPlaying :=
  ⟨by norm_num [demoState],
    (C1_completion_behavior.1 [] demoState (by norm_num [demoState])).1,
    (C1_completion_behavior.1 [] demoState (by norm_num [demoState])).2.2⟩

/-- C2: on every in-range tick the engine sets the position to
`start + (end - start) * progressFraction` on the segment
`(Route[segmentIndex], Route[segmentIndex + 1])`, appends exactly that
position to the visited path, and advances the progress ref by `0.02`;
when the advanced progress reaches `1` it resets progress to `0`,
increments the segment index and credits `distance(start, end) * 1000`
metres exactly once; on the example route `[[0,0],[0,1],[0,0]]`, after 50
firings the segment index is `1`, `distanceCovered` is within `1` metre of
`111195`, and `progressPercent` is `50`. -/
theorem C2_tick_behavior :
    (∀ (route : List Coord) (s : PlaybackState),
        s.segmentIndex + 1 < route.length →
          (tick route s).currentPos =
            ((segStart route s).1 + ((segEnd route s).1 - (segStart route s).1) * s.progress,
              (segStart route s).2 + ((segEnd route s).2 - (segStart route s).2) * s.progress) ∧
          (tick route s).visitedPath = s.visitedPath ++
            [((segStart route s).1 + ((segEnd route s).1 - (segStart route s).1) * s.progress,
              (segStart route s).2 + ((segEnd route s).2 - (segStart route s).2) * s.progress)] ∧
          (1 ≤ s.progress + 0.02 →
            (tick route s).progress = 0 ∧
            (tick route s).segmentIndex = s.segmentIndex + 1 ∧
            (tick route s).distanceCovered =
              s.distanceCovered + getDistance (segStart route s) (segEnd route s) * 1000) ∧
          (¬ 1 ≤ s.progress + 0.02 →
            (tick route s).progress = s.progress + 0.02 ∧
            (tick route s).segmentIndex = s.segmentIndex ∧
            (tick route s).distanceCovered = s.distanceCovered)) ∧
    (((fire exampleRoute)^[50] (playCmd exampleRoute (initState exampleRoute))).segmentIndex = 1 ∧
      |((fire exampleRoute)^[50] (playCmd exampleRoute (initState exampleRoute))).distanceCovered
        - 111195| < 1 ∧
      progressPercent exampleRoute
        ((fire exampleRoute)^[50] (playCmd exampleRoute (initState exampleRoute))) = 50) := by
  constructor
  · intro route s h
    by_cases hp : 1 ≤ s.progress + 0.02
    · rw [tick_cross route s h hp]
      exact ⟨rfl, rfl, fun _ => ⟨rfl, rfl, rfl⟩, fun hcontra => absurd hp hcontra⟩
    · rw [tick_nocross route s h hp]
      exact ⟨rfl, rfl, fun hcontra => absurd hcontra hp, fun _ => ⟨rfl, rfl, rfl⟩⟩
  · exact ⟨example_run50.1, example_distance_bound, example_progressPercent⟩

/-- C2 witness: the tick of a concrete in-range state appends the
interpolated position to the visited path. -/
theorem C2_witness :
    demoState.segmentIndex + 1 < exampleRoute.length ∧
    (tick exampleRoute demoState).visitedPath = demoState.visitedPath ++
      [((segStart exampleRoute demoState).1 +
          ((segEnd exampleRoute demoState).1 - (segStart exampleRoute demoState).1) *
            demoState.progress,
        (segStart exampleRoute demoState).2 +
          ((segEnd exampleRoute demoState).2 - (segStart exampleRoute demoState).2) *
            demoState.progress)] :=
  ⟨by norm_num [demoState, exampleRoute],
    (C2_tick_behavior.1 exampleRoute demoState (by norm_num [demoState, exampleRoute])).2.1⟩

/-- C10: the completion firing (segmentIndex + 1 out of range) returns
before any state mutation: segment index, progress, current position,
visited path and covered distance are all left unchanged. -/
theorem C10_completion_frame :
    ∀ (route : List Coord) (s : PlaybackState),
      route.length ≤ s.segmentIndex + 1 →
        (tick route s).segmentIndex = s.segmentIndex ∧
        (tick route s).progress = s.progress ∧
        (tick route s).currentPos = s.currentPos ∧
        (tick route s).visitedPath = s.visitedPath ∧
        (tick route s).distanceCovered = s.distanceCovered := by
  intro route s h
  rw [tick_end route s h]
  exact ⟨rfl, rfl, rfl, rfl, rfl⟩

/-- C10 witness: the frame facts at a concrete out-of-range state. -/
theorem C10_witness :
    ([] : List Coord).length ≤ demoState.segmentIndex + 1 ∧
    ((tick [] demoState).segmentIndex = demoState.segmentIndex ∧
      (tick [] demoState).progress = demoState.progress ∧
      (tick [] demoState).currentPos = demoState.currentPos ∧
      (tick [] demoState).visitedPath = demoState.visitedPath ∧
      (tick [] demoState).distanceCovered = demoState.distanceCovered) :=
  ⟨by norm_num [demoState], C10_completion_frame [] demoState (by norm_num [demoState])⟩

/-- C5: `reset()` is idempotent, and the resulting state is Stopped with
segment index 0, progress 0, covered distance 0, heading 0, and the
visited path and the current position reset to `Route[0]`. -/
theorem C5_reset_idempotent :
    ∀ (route : List Coord) (s : PlaybackState),
      resetState route (resetState route s) = resetState route s ∧
      (resetState route s).isPlaying = false ∧
      (resetState route s).intervalActive = false ∧
      (resetState route s).segmentIndex = 0 ∧
      (resetState route s).currentIndex = 0 ∧
      (resetState route s).progress = 0 ∧
      (resetState route s).distanceCovered = 0 ∧
      (resetState route s).heading = 0 ∧
      (∀ h : 0 < route.length,
        (resetState route s).visitedPath = [route.get ⟨0, h⟩] ∧
        (resetState route s).currentPos = route.get ⟨0, h⟩) := by
  intro route s
  refine ⟨rfl, rfl, rfl, rfl, rfl, rfl, rfl, rfl, ?_⟩
  intro h
  have hhead : route.headI = route.get ⟨0, h⟩ := by
    cases route with
    | nil => exact absurd h (by simp)
    | cons a l => rfl
  constructor
  · show [route.headI] = [route.get ⟨0, h⟩]
    rw [hhead]
  · show route.headI = route.get ⟨0, h⟩
    exact hhead

/-- C5 witness: idempotence and the visited-path reset at a concrete
route and state. -/
theorem C5_witness :
    resetState exampleRoute (resetState exampleRoute demoState) =
      resetState exampleRoute demoState ∧
    0 < exampleRoute.length ∧
    (resetState exampleRoute demoState).visitedPath =
      [exampleRoute.get ⟨0, by norm_num [exampleRoute]⟩] :=
  ⟨(C5_reset_idempotent exampleRoute demoState).1,
    by norm_num [exampleRoute],
    ((C5_reset_idempotent exampleRoute demoState).2.2.2.2.2.2.2.2
      (by norm_num [exampleRoute])).1⟩

lemma loadRoute_cons (w : Waypoint) (ws : List Waypoint) :
    loadRoute (w :: ws) =
      ((w.latitude, w.longitude) ::
          ws.map fun p => ((p.latitude : ℝ), (p.longitude : ℝ))) ++
        [(w.latitude, w.longitude)] := rfl

lemma loadRoute_length (data : List Waypoint) (hd : 0 < data.length) :
    (loadRoute data).length = data.length + 1 := by
  match data with
  | [] => simp at hd
  | w :: ws =>
    rw [loadRoute_cons]
    simp

/-- C3: for a nonempty list of `N` waypoint records the loaded Route has
length `N + 1`, its last entry equals its first, and its first `N` entries
are the input records' `(latitude, longitude)` pairs in order.  (For `N = 0`
the JavaScript code appends `undefined`, outside the coordinate data
model.) -/
theorem C3_route_loader :
    ∀ data : List Waypoint, 0 < data.length →
      (loadRoute data).length = data.length + 1 ∧
      (loadRoute data)[data.length]? = (loadRoute data)[0]? ∧
      (loadRoute data).take data.length =
        data.map fun p => ((p.latitude : ℝ), (p.longitude : ℝ)) := by
  intro data hd
  match data with
  | [] => simp at hd
  | w :: ws =>
    refine ⟨loadRoute_length _ hd, ?_, ?_⟩
    · rw [loadRoute_cons]
      have hlen : (w :: ws).length =
          ((w.latitude, w.longitude) ::
            ws.map fun p => ((p.latitude : ℝ), (p.longitude : ℝ))).length := by
        simp
      rw [hlen, List.getElem?_concat_length]
      simp
    · rw [loadRoute_cons]
      have hlen : (w :: ws).length =
          ((w.latitude, w.longitude) ::
            ws.map fun p => ((p.latitude : ℝ), (p.longitude : ℝ))).length := by
        simp
      rw [hlen, List.take_left]
      rfl

/-- C3 witness: the loader facts at a concrete one-record input. -/
theorem C3_witness :
    0 < ([⟨5, 6⟩] : List Waypoint).length ∧
    (loadRoute [⟨5, 6⟩]).length = ([⟨5, 6⟩] : List Waypoint).length + 1 :=
  ⟨by norm_num, (C3_route_loader [⟨5, 6⟩] (by norm_num)).1⟩

/-- C6 (amended): the code has no waypoint-count validation.  The
persistent loading indicator is shown exactly while the route state is
still the empty list (the fetch never resolved, or resolved to nothing);
any fetched list with at least one waypoint — including a single
waypoint — produces a closed-loop route of length at least 2 that passes
the `route.length === 0` guard and is fully usable. -/
theorem C6_loading_guard :
    loadingGuardShown [] = true ∧
    ∀ data : List Waypoint, 0 < data.length →
      loadingGuardShown (loadRoute data) = false ∧ 2 ≤ (loadRoute data).length := by
  constructor
  · rfl
  · intro data hd
    have hlen := loadRoute_length data hd
    constructor
    · simp [loadingGuardShown, hlen]
    · omega

/-- C6 counterexample: a source returning a single waypoint does not fail:
it yields the degenerate two-point route `[(5,6),(5,6)]`, and the loading
guard is off — contradicting the claim that fewer than 2 waypoints is
surfaced as a load failure. -/
theorem C6_counterexample :
    (loadRoute [⟨5, 6⟩]).length = 2 ∧
    loadingGuardShown (loadRoute [⟨5, 6⟩]) = false := by
  constructor
  · rfl
  · rfl

/-- C6 witness: the guard is off for a concrete one-waypoint source. -/
theorem C6_witness :
    0 < ([⟨7, 8⟩] : List Waypoint).length ∧
    loadingGuardShown (loadRoute [⟨7, 8⟩]) = false :=
  ⟨by norm_num, (C6_loading_guard.2 [⟨7, 8⟩] (by norm_num)).1⟩

lemma playCmd_segmentIndex (route : List Coord) (s : PlaybackState) :
    (playCmd route s).segmentIndex = s.segmentIndex := rfl

lemma playCmd_alerts (route : List Coord) (s : PlaybackState) :
    (playCmd route s).alerts = s.alerts := rfl

lemma playCmd_isPlaying (route : List Coord) (s : PlaybackState) :
    (playCmd route s).isPlaying = true := rfl

lemma playCmd_intervalActive (route : List Coord) (s : PlaybackState) :
    (playCmd route s).intervalActive = decide (1 < route.length) := rfl

lemma pauseCmd_segmentIndex (s : PlaybackState) :
    (pauseCmd s).segmentIndex = s.segmentIndex := rfl

lemma pauseCmd_alerts (s : PlaybackState) : (pauseCmd s).alerts = s.alerts := rfl

lemma pauseCmd_isPlaying (s : PlaybackState) : (pauseCmd s).isPlaying = false := rfl

/-- C7 (amended): clicking Play while at the end of the route is not a
no-op.  The click itself flips `isPlaying` to `true` (a state change) and
the effect re-creates the interval; the click leaves the visited path,
segment index and position untouched, but the next scheduled firing then
emits a further completion signal. -/
theorem C7_play_at_end :
    ∀ (route : List Coord) (s : PlaybackState),
      route.length ≤ s.segmentIndex + 1 → s.isPlaying = false →
        (playCmd route s).isPlaying = true ∧
        (playCmd route s).isPlaying ≠ s.isPlaying ∧
        (playCmd route s).visitedPath = s.visitedPath ∧
        (playCmd route s).segmentIndex = s.segmentIndex ∧
        (playCmd route s).currentPos = s.currentPos ∧
        (tick route (playCmd route s)).alerts = s.alerts + 1 ∧
        (tick route (playCmd route s)).visitedPath = s.visitedPath := by
  intro route s hend hsp
  have hend2 : route.length ≤ (playCmd route s).segmentIndex + 1 := hend
  rw [tick_end route _ hend2]
  refine ⟨rfl, ?_, rfl, rfl, rfl, rfl, rfl⟩
  rw [hsp]
  simp [playCmd]

/-- C7 counterexample: after the example run completes naturally (alert
count 1) and the user pauses, clicking Play changes the playback state
(`isPlaying` flips) and the next firing raises the alert count to 2 — a
second round-trip-completed signal, so play-at-end is not a no-op. -/
theorem C7_counterexample :
    (playCmd exampleRoute (pauseCmd endState)).isPlaying ≠ (pauseCmd endState).isPlaying ∧
    (fire exampleRoute (playCmd exampleRoute (pauseCmd endState))).alerts = 2 := by
  have hL : 2 ≤ exampleRoute.length := by norm_num [exampleRoute]
  have h := run_completes exampleRoute hL 0
  have hidx : 50 * (exampleRoute.length - 1) + 1 + 0 = 101 := by norm_num [exampleRoute]
  rw [hidx] at h
  have hseg : endState.segmentIndex = 2 := by
    have h4 := h.2.2.2
    unfold endState
    rw [h4]
    norm_num [exampleRoute]
  have halerts : endState.alerts = 1 := h.1
  constructor
  · rw [playCmd_isPlaying, pauseCmd_isPlaying]
    simp
  · have hact : (playCmd exampleRoute (pauseCmd endState)).intervalActive = true := by
      rw [playCmd_intervalActive]
      norm_num [exampleRoute]
    rw [fire_active hact]
    have hend : exampleRoute.length ≤ (playCmd exampleRoute (pauseCmd endState)).segmentIndex + 1 := by
      rw [playCmd_segmentIndex, pauseCmd_segmentIndex, hseg]
      norm_num [exampleRoute]
    rw [tick_end _ _ hend]
    have hfin : ({ playCmd exampleRoute (pauseCmd endState) with
        intervalActive := false,
        alerts := (playCmd exampleRoute (pauseCmd endState)).alerts + 1 } :
          PlaybackState).alerts =
        (playCmd exampleRoute (pauseCmd endState)).alerts + 1 := rfl
    rw [hfin, playCmd_alerts, pauseCmd_alerts, halerts]

/-- C7 witness: the play-at-end facts at a concrete paused end state. -/
theorem C7_witness :
    exampleRoute.length ≤ sEndDemo.segmentIndex + 1 ∧
    sEndDemo.isPlaying = false ∧
    (tick exampleRoute (playCmd exampleRoute sEndDemo)).alerts = sEndDemo.alerts + 1 :=
  ⟨by norm_num [exampleRoute, sEndDemo], rfl,
    (C7_play_at_end exampleRoute sEndDemo
      (by norm_num [exampleRoute, sEndDemo]) rfl).2.2.2.2.2.1⟩

/-- C4 witness: the progress-percent bounds at a concrete route and state. -/
theorem C4_witness :
    2 ≤ exampleRoute.length ∧
    demoState.currentIndex = demoState.segmentIndex ∧
    (0 ≤ progressPercent exampleRoute demoState ∧
      progressPercent exampleRoute demoState ≤ 100) :=
  ⟨by norm_num [exampleRoute], rfl,
    (C4_monotonicity exampleRoute (by norm_num [exampleRoute])).2.2.2 demoState⟩
